import Mathlib

/-!
Verification development for the NYC Open Data pipeline repository.

The pipeline is embedded shallowly:
* pandas DataFrames become column-major tables (`DataFrame`): a list of
  (column name, cell list) pairs;
* Python cell values become the inductive type `Val`;
* the external libraries `json.loads` and `shapely.shape` are passed in as
  explicit function parameters (their behaviour is not part of the repo);
* the database becomes an explicit state (`DBState`) and the SQL texts are
  built exactly as the source's f-strings build them;
* `datetime.now()` becomes an explicit `now` parameter.
-/

/-- A Python scalar value as used in schema descriptors (defaults etc.). -/
inductive PyVal where
  | str (s : String)
  | int (n : Int)
  | bool (b : Bool)
deriving Repr, DecidableEq

/-- Python truthiness of a scalar (`if default:` in the source). -/
def PyVal.truthy : PyVal → Bool
  | .str s => !(s == "")
  | .int n => !(n == 0)
  | .bool b => b

/-- Python truthiness of an optional scalar: `None` is falsy. -/
def truthyOpt : Option PyVal → Bool
  | none => false
  | some v => v.truthy

/-- Python `str()` rendering of a scalar, as interpolated into DDL. -/
def PyVal.render : PyVal → String
  | .str s => s
  | .int n => toString n
  | .bool b => if b then "True" else "False"

/-- A GeoJSON-shaped structure (a parsed JSON mapping), kept abstract as a
field list; an empty mapping is falsy in Python. -/
structure GeoJson where
  fields : List (String × String)
deriving Repr, DecidableEq

/-- A cell value of a raw or cleaned table. -/
inductive Val where
  | null
  | num (n : Int)
  | str (s : String)
  | dict (g : GeoJson)
  | wkt (w : String) (srid : Nat)
  | time (t : Int)
deriving Repr, DecidableEq

/-- Python truthiness of a cell value (`if not geom_data:` in the source). -/
def Val.isFalsy : Val → Bool
  | .null => true
  | .num n => n == 0
  | .str s => s == ""
  | .dict g => g.fields.isEmpty
  | .wkt _ _ => false
  | .time _ => false

/-- Parse a list of decimal digit characters into a number. -/
def parseDigits : List Char → Option Nat
  | [] => none
  | cs => cs.foldl
      (fun acc c => match acc with
        | none => none
        | some n => if c.isDigit then some (n * 10 + (c.toNat - 48)) else none)
      (some 0)

/-- Model of numeric parsing as performed by `pd.to_numeric`: an optional
minus sign followed by decimal digits. -/
def parseNumStr (s : String) : Option Int :=
  match s.toList with
  | [] => none
  | c :: rest =>
    if c == '-' then (parseDigits rest).map (fun n => -(n : Int))
    else (parseDigits (c :: rest)).map (fun n => (n : Int))

/-- `pd.to_numeric(col, errors='coerce')` applied to one cell: numbers pass
through, numeric strings parse, everything else coerces to null (NaN). -/
def toNumericCoerce : Val → Val
  | .num n => .num n
  | .str s =>
    match parseNumStr s with
    | some n => .num n
    | none => .null
  | _ => .null

/-- Column definition of the Schema Descriptor: the pydantic column model
and the dict the storage layer reads (`type`, `nullable`, `default`,
`primary_key`), plus the `required` flag the transformer reads.
Absent dict keys take the `.get` defaults from `storage.py`. -/
structure ColumnSchema where
  type : String := ""
  nullable : Bool := true
  default : Option PyVal := none
  primary_key : Bool := false
  required : Bool := false
deriving Repr, DecidableEq

/-- An index declaration of the Schema Descriptor. -/
structure IndexDef where
  name : String
  columns : List String
deriving Repr, DecidableEq

/-- The Schema Descriptor: table name, ordered column mapping, indexes and
raw constraint fragments. -/
structure DataSchema where
  table_name : String := ""
  columns : List (String × ColumnSchema)
  indexes : List IndexDef := []
  constraints : List String := []
deriving Repr, DecidableEq

/-- The per-dataset static configuration the transformer reads
(`self.config.data_schema`). -/
structure DatasetConfig where
  data_schema : DataSchema
deriving Repr, DecidableEq

/-- A pandas DataFrame, column-major: each column is a name and its cells.
All columns of a well-formed frame have the same length. -/
structure DataFrame where
  cols : List (String × List Val)
deriving Repr, DecidableEq

/-- The column index of a frame (`df.columns`). -/
def DataFrame.colNames (df : DataFrame) : List String :=
  df.cols.map Prod.fst

/-- `col in df.columns`. -/
def DataFrame.hasCol (df : DataFrame) (n : String) : Bool :=
  decide (n ∈ df.colNames)

/-- Number of rows of the frame (length of its columns). -/
def DataFrame.nRows (df : DataFrame) : Nat :=
  match df.cols with
  | [] => 0
  | (_, vs) :: _ => vs.length

/-- Look up a column's cells by name (first match, as pandas label lookup). -/
def DataFrame.lookupCol (df : DataFrame) (n : String) : Option (List Val) :=
  (df.cols.find? (fun p => p.1 = n)).map Prod.snd

/-- `df[col] = df[col].apply(f)`: map `f` over every column named `n`. -/
def mapCol (df : DataFrame) (n : String) (f : Val → Val) : DataFrame :=
  ⟨df.cols.map (fun p => if p.1 = n then (p.1, p.2.map f) else p)⟩

/-- `df[name] = v` for a scalar `v`: broadcast over existing rows, or append
a new constant column. -/
def setCol (df : DataFrame) (n : String) (v : Val) : DataFrame :=
  if df.hasCol n then
    ⟨df.cols.map (fun p => if p.1 = n then (p.1, p.2.map (fun _ => v)) else p)⟩
  else
    ⟨df.cols ++ [(n, List.replicate df.nRows v)]⟩

/-- The explicit rename mapping of `Ntas2020Transformer.transform`. -/
def ntaColumnMapping : List (String × String) :=
  [("borocode", "boro_code"), ("boroname", "boro_name"),
   ("countyfips", "county_fips"), ("nta2020", "nta2020"),
   ("ntaname", "nta_name"), ("ntaabbrev", "nta_abbrev"),
   ("ntatype", "nta_type"), ("cdta2020", "cdta2020"),
   ("cdtaname", "cdta_name"), ("shape_leng", "shape_leng"),
   ("shape_area", "shape_area"), ("the_geom", "geom")]

/-- Apply a rename mapping to one column name (unmapped names unchanged). -/
def applyRename (mapping : List (String × String)) (n : String) : String :=
  ((mapping.find? (fun p => p.1 = n)).map Prod.snd).getD n

/-- `df.rename(columns=mapping)`. -/
def renameColumns (mapping : List (String × String)) (df : DataFrame) : DataFrame :=
  ⟨df.cols.map (fun p => (applyRename mapping p.1, p.2))⟩

/-- Whether a column name starts with the SODA reserved colon. -/
def startsWithColon (s : String) : Bool :=
  match s.toList with
  | [] => false
  | c :: _ => c == ':'

/-- Drop SODA metadata columns: keep columns not starting with a colon. -/
def dropSodaColumns (df : DataFrame) : DataFrame :=
  ⟨df.cols.filter (fun p => !(startsWithColon p.1))⟩

/-- The declared numeric columns of the NTA transformer. -/
def ntaNumericCols : List String :=
  ["boro_code", "shape_leng", "shape_area"]

/-- One iteration of the numeric-conversion loop:
`if col in df.columns: df[col] = pd.to_numeric(df[col], errors='coerce')`. -/
def numericStep (df : DataFrame) (c : String) : DataFrame :=
  if df.hasCol c then mapCol df c toNumericCoerce else df

/-- The numeric-conversion loop of `transform` over the declared columns. -/
def convertNumericColumns (df : DataFrame) : DataFrame :=
  ntaNumericCols.foldl numericStep df

/-- The geometry dict extracted inside `_convert_geometry`'s try block:
a string is fed to `json.loads` (`jsonLoads` models it and yields `none` on a
parse error); a parsed structure passes through; any other value makes
`shapely.shape` raise, modelled as no dict being available. -/
def geomDictOf (jsonLoads : String → Option GeoJson) : Val → Option GeoJson
  | .str s => jsonLoads s
  | .dict g => some g
  | _ => none

/-- `Ntas2020Transformer._convert_geometry`, returning the new cell value and
whether a warning was logged. Falsy payloads return null immediately with no
warning; a failure of parsing or of `shapely.shape` (`shapeFn`, yielding the
WKT text on success) is caught, logged, and becomes null. -/
def convertGeometry (jsonLoads : String → Option GeoJson)
    (shapeFn : GeoJson → Option String) (v : Val) : Val × Bool :=
  if v.isFalsy then (.null, false)
  else
    match (geomDictOf jsonLoads v).bind shapeFn with
    | some w => (.wkt w 4326, false)
    | none => (.null, true)

/-- The geometry step of `transform`:
`if 'geom' in df.columns: df['geom'] = df['geom'].apply(self._convert_geometry)`. -/
def convertGeometryColumn (jsonLoads : String → Option GeoJson)
    (shapeFn : GeoJson → Option String) (df : DataFrame) : DataFrame :=
  if df.hasCol "geom" then
    mapCol df "geom" (fun v => (convertGeometry jsonLoads shapeFn v).1)
  else df

/-- `BaseDatasetTransformer.add_metadata`: append the constant dataset id and
the batch-wide ingestion timestamp. -/
def add_metadata (dataset_id : String) (now : Int) (df : DataFrame) : DataFrame :=
  setCol (setCol df "dataset_id" (.str dataset_id)) "ingestion_timestamp" (.time now)

/-- The required-or-primary-key column names of the configuration, as
`transform` computes them. -/
def requiredCols (cfg : DatasetConfig) : List String :=
  (cfg.data_schema.columns.filter (fun p => p.2.required || p.2.primary_key)).map Prod.fst

/-- The validation error raised by `validate_required_columns`: the message
carries the dataset name and the set of missing columns. -/
structure ValidationError where
  dataset_name : String
  missing_columns : List String
deriving Repr, DecidableEq

/-- The missing-column set `set(required_columns) - set(df.columns)`. -/
def missingColumns (required : List String) (df : DataFrame) : List String :=
  required.filter (fun c => !(df.hasCol c))

/-- `BaseDatasetTransformer.validate_required_columns`: raises iff the
missing set is non-empty. -/
def validate_required_columns (dataset_name : String) (df : DataFrame)
    (required : List String) : Except ValidationError Unit :=
  let missing := missingColumns required df
  if missing.isEmpty then .ok () else .error ⟨dataset_name, missing⟩

/-- The cleaning pipeline of `Ntas2020Transformer.transform` before the
required-column validation: rename, drop SODA columns, coerce numerics,
convert geometry, append metadata. -/
def ntaPipeline (dataset_id : String) (jsonLoads : String → Option GeoJson)
    (shapeFn : GeoJson → Option String) (now : Int) (df : DataFrame) : DataFrame :=
  add_metadata dataset_id now
    (convertGeometryColumn jsonLoads shapeFn
      (convertNumericColumns
        (dropSodaColumns
          (renameColumns ntaColumnMapping df))))

/-- `Ntas2020Transformer.transform`: run the pipeline, then validate the
required columns; a validation failure propagates, success returns the
cleaned frame. -/
def transform (cfg : DatasetConfig) (dataset_id dataset_name : String)
    (jsonLoads : String → Option GeoJson) (shapeFn : GeoJson → Option String)
    (now : Int) (df : DataFrame) : Except ValidationError DataFrame :=
  let out := ntaPipeline dataset_id jsonLoads shapeFn now df
  match validate_required_columns dataset_name out (requiredCols cfg) with
  | .ok _ => .ok out
  | .error e => .error e

/-- Insert-or-overwrite a column definition in the descriptor's mapping
(`schema['columns'][name] = d`). -/
def setColumnDef (cols : List (String × ColumnSchema)) (n : String)
    (d : ColumnSchema) : List (String × ColumnSchema) :=
  if cols.any (fun p => p.1 = n) then
    cols.map (fun p => if p.1 = n then (n, d) else p)
  else cols ++ [(n, d)]

/-- The `dataset_id` metadata column definition added by `get_schema`. -/
def datasetIdColumn : ColumnSchema :=
  { type := "VARCHAR(20)", nullable := false }

/-- The `ingestion_timestamp` metadata column definition added by
`get_schema`. -/
def ingestionTimestampColumn : ColumnSchema :=
  { type := "TIMESTAMP", nullable := false,
    default := some (.str "CURRENT_TIMESTAMP") }

/-- `Ntas2020Transformer.get_schema`: dump the static schema and add the two
metadata column definitions. A pure function of the configuration. -/
def get_schema (cfg : DatasetConfig) : DataSchema :=
  let schema := cfg.data_schema
  { schema with
    columns :=
      setColumnDef (setColumnDef schema.columns "dataset_id" datasetIdColumn)
        "ingestion_timestamp" ingestionTimestampColumn }

/-- The constraint segment of one column fragment in
`DataStorage.create_table_from_schema`: `PRIMARY KEY` wins over `NOT NULL`
(the `elif` in the source). -/
def constraintSeg (d : ColumnSchema) : List String :=
  if d.primary_key then [" PRIMARY KEY"]
  else if !d.nullable then [" NOT NULL"] else []

/-- The default segment of one column fragment: emitted only when the
declared default is truthy (`if default:` in the source). -/
def defaultSeg (d : ColumnSchema) : List String :=
  match d.default with
  | none => []
  | some v => if v.truthy then [" DEFAULT " ++ v.render] else []

/-- The pieces successively appended to `col_str` for one column. -/
def colSegments (col_name : String) (d : ColumnSchema) : List String :=
  (col_name ++ " " ++ d.type) :: (constraintSeg d ++ defaultSeg d)

/-- The finished per-column DDL fragment `col_str`. -/
def colFragment (col_name : String) (d : ColumnSchema) : String :=
  String.join (colSegments col_name d)

/-- `DataStorage.create_table_from_schema`, as the DDL text it executes. -/
def create_table_from_schema (schema : DataSchema) : String :=
  let columns :=
    (schema.columns.map (fun p => colFragment p.1 p.2)) ++ schema.constraints
  "CREATE TABLE IF NOT EXISTS " ++ schema.table_name ++ " ( "
    ++ String.intercalate ", " columns ++ " );"

/-- A database row, as the dict `df.to_dict('records')` yields. -/
abbrev Row := List (String × Val)

/-- Look up a field of a row. -/
def lookupRow (r : Row) (c : String) : Option Val :=
  (r.find? (fun p => p.1 = c)).map Prod.snd

/-- The single-row upsert SQL text built for one record, exactly as the
source's f-string assembles it. -/
def mkUpsertSql (table_name : String) (unique_columns : List String) (r : Row) : String :=
  let columns := r.map Prod.fst
  let insert_cols := String.intercalate ", " columns
  let insert_vals := String.intercalate ", " (columns.map (fun c => ":" ++ c))
  let update_cols := columns.filter (fun c => !(unique_columns.contains c))
  let update_set :=
    String.intercalate ", " (update_cols.map (fun c => c ++ " = EXCLUDED." ++ c))
  let conflict_cols := String.intercalate ", " unique_columns
  "INSERT INTO " ++ table_name ++ " (" ++ insert_cols ++ ") VALUES ("
    ++ insert_vals ++ ") ON CONFLICT (" ++ conflict_cols
    ++ ") DO UPDATE SET " ++ update_set ++ ";"

/-- Whether two rows collide on the unique-column set. -/
def rowKeysMatch (unique_columns : List String) (a b : Row) : Bool :=
  unique_columns.all (fun c => lookupRow a c == lookupRow b c)

/-- `DO UPDATE SET <non-key cols> = EXCLUDED.<col>` applied to the existing
row: non-key fields take the incoming row's value when it supplies one. -/
def updateRow (unique_columns : List String) (existing incoming : Row) : Row :=
  existing.map (fun p =>
    if unique_columns.contains p.1 then p
    else
      match lookupRow incoming p.1 with
      | some v => (p.1, v)
      | none => p)

/-- The effect of one `INSERT ... ON CONFLICT DO UPDATE` statement on the
(uncommitted) table contents. -/
def applyUpsertRow (unique_columns : List String) (table : List Row) (r : Row) : List Row :=
  if table.any (rowKeysMatch unique_columns r) then
    table.map (fun e =>
      if rowKeysMatch unique_columns r e then updateRow unique_columns e r else e)
  else table ++ [r]

/-- The row loop of `upsert_data` run against the pending transaction state:
`fails r` models the database raising on that row's statement, which aborts
the loop; `none` means the loop died before `conn.commit()` ran. -/
def upsertLoop (fails : Row → Bool) (unique_columns : List String) :
    List Row → List Row → Option (List Row)
  | table, [] => some table
  | table, r :: rs =>
    if fails r then none
    else upsertLoop fails unique_columns (applyUpsertRow unique_columns table r) rs

/-- An observable event on the database connection. -/
inductive DbEvent where
  | exec (sql : String)
  | commit
deriving Repr, DecidableEq

/-- The event trace of `upsert_data`'s row loop: one `exec` per record (the
failing statement is still attempted), and `commit` only after the loop
finishes all rows. -/
def upsertEvents (fails : Row → Bool) (table_name : String)
    (unique_columns : List String) : List Row → List DbEvent
  | [] => [.commit]
  | r :: rs =>
    if fails r then [.exec (mkUpsertSql table_name unique_columns r)]
    else .exec (mkUpsertSql table_name unique_columns r)
      :: upsertEvents fails table_name unique_columns rs

/-- One row of the `dataset_metadata` table. -/
structure MetadataRecord where
  dataset_id : String
  table_name : String
  last_ingestion : Int
  record_count : Nat
  status : String
deriving Repr, DecidableEq

/-- The database state seen by the storage layer: the destination table's
committed rows and the `dataset_metadata` table. -/
structure DBState where
  table : List Row
  metadata : List MetadataRecord
deriving Repr, DecidableEq

/-- The metadata upsert of `DataStorage._update_metadata`: on conflict only
`last_ingestion`, `record_count` and `status` are updated. -/
def updateMetadataTable (meta : List MetadataRecord) (rec : MetadataRecord) :
    List MetadataRecord :=
  if meta.any (fun m => m.dataset_id = rec.dataset_id) then
    meta.map (fun m =>
      if m.dataset_id = rec.dataset_id then
        { m with last_ingestion := rec.last_ingestion,
                 record_count := rec.record_count, status := rec.status }
      else m)
  else meta ++ [rec]

/-- `DataStorage._update_metadata`: record the ingestion time, the given
record count and a success status for the dataset. -/
def update_metadata (st : DBState) (dataset_id table_name : String)
    (record_count : Nat) (now : Int) : DBState :=
  { st with
    metadata := updateMetadataTable st.metadata
      ⟨dataset_id, table_name, now, record_count, "success"⟩ }

/-- `DataStorage.store_data` on the success path: `df.to_sql` appends (or
replaces) the rows, then the metadata record is updated with `len(df)` and
`len(df)` is returned. -/
def store_data (st : DBState) (rows : List Row) (table_name dataset_id : String)
    (if_exists : String) (now : Int) : DBState × Nat :=
  let st1 : DBState :=
    { st with table := if if_exists == "replace" then rows else st.table ++ rows }
  (update_metadata st1 dataset_id table_name rows.length now, rows.length)

/-- `DataStorage.upsert_data`: run the row loop inside one connection; on
success the single `conn.commit()` publishes the pending table and the
metadata is updated with `len(df)`; a failure propagates the exception and,
the commit never having run, the connection close rolls the open
transaction back, leaving the committed state unchanged. -/
def upsert_data (fails : Row → Bool) (st : DBState) (records : List Row)
    (table_name dataset_id : String) (unique_columns : List String) (now : Int) :
    Except DBState (DBState × Nat) :=
  match upsertLoop fails unique_columns st.table records with
  | some t =>
    .ok (update_metadata { st with table := t } dataset_id table_name
          records.length now, records.length)
  | none => .error st

/-- An HTTP outcome of the FastAPI route. -/
inductive ApiResult where
  | ok (body : String)
  | httpError (status : Nat) (detail : String)
deriving Repr, DecidableEq

/-- The observable outcome of one `get_food_gaps` call: the response and
whether `storage.close()` ran. -/
structure FoodGapsOutcome where
  response : ApiResult
  storage_closed : Bool
deriving Repr, DecidableEq

/-- The `/food-gaps` handler: the aggregate query's outcome is either the
scalar GeoJSON document or an exception message; an exception is caught,
logged and re-raised as `HTTPException(500, str(e))`; the `finally` block
closes the storage on every path. -/
def get_food_gaps (queryResult : Except String String) : FoodGapsOutcome :=
  match queryResult with
  | .ok geojson => { response := .ok geojson, storage_closed := true }
  | .error e => { response := .httpError 500 e, storage_closed := true }

/-- ASCII lower-casing of one character code (`str.lower`). -/
def toLowerCode (n : Nat) : Nat :=
  if 65 ≤ n ∧ n ≤ 90 then n + 32 else n

/-- The regex class `\w` on ASCII character codes. -/
def isWordCode (n : Nat) : Bool :=
  (97 ≤ n && n ≤ 122) || (65 ≤ n && n ≤ 90) || (48 ≤ n && n ≤ 57) || (n == 95)

/-- The regex class `\s` on ASCII character codes. -/
def isSpaceCode (n : Nat) : Bool :=
  n == 32 || n == 9 || n == 10 || n == 13 || n == 12 || n == 11

/-- Replace each maximal whitespace run by one underscore (code 95); the
flag records whether the previous character was part of a run. -/
def collapseSpacesAux : Bool → List Nat → List Nat
  | _, [] => []
  | inRun, c :: rest =>
    if isSpaceCode c then
      if inRun then collapseSpacesAux true rest
      else 95 :: collapseSpacesAux true rest
    else c :: collapseSpacesAux false rest

/-- The regex substitution of a maximal whitespace run by an underscore
(`.str.replace(regex for spaces, underscore)`). -/
def collapseSpaces (l : List Nat) : List Nat :=
  collapseSpacesAux false l

/-- One column name through `standardize_column_names`: lower-case, strip
characters that are neither word nor whitespace, collapse whitespace runs
to underscores. Names are ASCII character-code lists. -/
def standardizeName (s : List Nat) : List Nat :=
  collapseSpaces ((s.map toLowerCode).filter (fun c => isWordCode c || isSpaceCode c))

/-- `BaseDatasetTransformer.standardize_column_names`, acting on the column
index (the cell data is untouched by the source method). -/
def standardize_column_names (columns : List (List Nat)) : List (List Nat) :=
  columns.map standardizeName

/-- A name occurring in a frame's column list is reported by `hasCol`. -/
theorem hasCol_of_mem {df : DataFrame} {m : String} {vs : List Val}
    (h : (m, vs) ∈ df.cols) : df.hasCol m = true := by
  unfold DataFrame.hasCol DataFrame.colNames
  exact decide_eq_true (List.mem_map.mpr ⟨(m, vs), h, rfl⟩)

/-- `mapCol` does not change the column index. -/
theorem mapCol_colNames (df : DataFrame) (n : String) (f : Val → Val) :
    (mapCol df n f).colNames = df.colNames := by
  unfold mapCol DataFrame.colNames
  simp only [List.map_map]
  refine List.map_congr_left (fun p _ => ?_)
  by_cases h : p.1 = n <;> simp [h]

/-- `mapCol` does not change any column's length. -/
theorem mapCol_lengths (df : DataFrame) (n : String) (f : Val → Val) :
    (mapCol df n f).cols.map (fun p => p.2.length) =
      df.cols.map (fun p => p.2.length) := by
  unfold mapCol
  simp only [List.map_map]
  refine List.map_congr_left (fun p _ => ?_)
  by_cases h : p.1 = n <;> simp [h]

/-- Where a column of the input lands in `mapCol`'s output. -/
theorem mapCol_mem {df : DataFrame} {m : String} {vs : List Val}
    (n : String) (f : Val → Val) (h : (m, vs) ∈ df.cols) :
    (if m = n then (m, vs.map f) else (m, vs)) ∈ (mapCol df n f).cols := by
  unfold mapCol
  have := List.mem_map_of_mem
    (f := fun p : String × List Val => if p.1 = n then (p.1, p.2.map f) else p) h
  simpa using this

/-- `numericStep` does not change the column index. -/
theorem numericStep_colNames (df : DataFrame) (c : String) :
    (numericStep df c).colNames = df.colNames := by
  unfold numericStep
  by_cases h : df.hasCol c <;> simp [h, mapCol_colNames]

/-- `numericStep` does not change any column's length. -/
theorem numericStep_lengths (df : DataFrame) (c : String) :
    (numericStep df c).cols.map (fun p => p.2.length) =
      df.cols.map (fun p => p.2.length) := by
  unfold numericStep
  by_cases h : df.hasCol c <;> simp [h, mapCol_lengths]

/-- Where a column of the input lands in `numericStep`'s output. -/
theorem numericStep_mem {df : DataFrame} {m : String} {vs : List Val}
    (c : String) (h : (m, vs) ∈ df.cols) :
    (if m = c then (m, vs.map toNumericCoerce) else (m, vs)) ∈ (numericStep df c).cols := by
  unfold numericStep
  by_cases hc : df.hasCol c
  · simp only [hc, if_pos]
    exact mapCol_mem c toNumericCoerce h
  · have hmc : m ≠ c := by
      intro he
      exact hc (he ▸ hasCol_of_mem h)
    simp [hc, hmc]
    exact h

/-- `transform` as a single conditional on the missing-column set of the
pipeline's result. -/
theorem transform_eq (cfg : DatasetConfig) (dataset_id dataset_name : String)
    (jl : String → Option GeoJson) (sf : GeoJson → Option String) (now : Int)
    (df : DataFrame) :
    transform cfg dataset_id dataset_name jl sf now df =
      if (missingColumns (requiredCols cfg) (ntaPipeline dataset_id jl sf now df)).isEmpty
      then .ok (ntaPipeline dataset_id jl sf now df)
      else .error ⟨dataset_name,
        missingColumns (requiredCols cfg) (ntaPipeline dataset_id jl sf now df)⟩ := by
  unfold transform validate_required_columns
  cases h : (missingColumns (requiredCols cfg) (ntaPipeline dataset_id jl sf now df)).isEmpty <;>
    simp [h]

/-- The configuration used for the concrete C1 inputs: `boro_code` is a
required integer column. -/
def cfgC1 : DatasetConfig :=
  ⟨{ table_name := "ntas_2020",
     columns := [("boro_code", { type := "INTEGER", required := true })] }⟩

/-- A raw frame whose `borocode` column holds a non-numeric string. -/
def dfC1 : DataFrame := ⟨[("borocode", [Val.str "abc"])]⟩

/-- C1 counterexample: on `dfC1` the transform succeeds although the
required column `boro_code` of its output holds null in its only row (the
numeric coercion turned the non-numeric string into null and the validation
only checks column presence, not per-row non-nullness). -/
theorem c1_counterexample :
    requiredCols cfgC1 = ["boro_code"]
  ∧ (transform cfgC1 "nta_2020" "NTAs 2020" (fun _ => none) (fun _ => none) 0 dfC1).map
      (fun d => d.lookupCol "boro_code") = Except.ok (some [Val.null]) :=
  ⟨rfl, rfl⟩

/-- C1 (amended): whenever `transform` succeeds, every column marked
required or primary-key in the Schema Descriptor is present as a column of
the returned Cleaned Record Set; otherwise the transform fails before any
storage occurs. Per-row non-nullness of those columns is not guaranteed. -/
theorem c1_required_columns_present (cfg : DatasetConfig)
    (dataset_id dataset_name : String) (jl : String → Option GeoJson)
    (sf : GeoJson → Option String) (now : Int) (df out : DataFrame)
    (h : transform cfg dataset_id dataset_name jl sf now df = .ok out) :
    ∀ c ∈ requiredCols cfg, out.hasCol c = true := by
  rw [transform_eq] at h
  intro c hc
  cases he : (missingColumns (requiredCols cfg) (ntaPipeline dataset_id jl sf now df)).isEmpty
  · rw [he] at h
    simp at h
  · rw [he] at h
    simp only [if_true, Except.ok.injEq] at h
    have hnil : missingColumns (requiredCols cfg) (ntaPipeline dataset_id jl sf now df) = [] :=
      List.isEmpty_iff.mp he
    unfold missingColumns at hnil
    have hmc := List.filter_eq_nil_iff.mp hnil c hc
    rw [← h]
    cases hcol : (ntaPipeline dataset_id jl sf now df).hasCol c
    · exact absurd (by simp [hcol]) hmc
    · rfl

/-- C1 witness: the amended theorem applied to the concrete C1 inputs. -/
theorem c1_witness :
    DataFrame.hasCol (ntaPipeline "nta_2020" (fun _ => none) (fun _ => none) 0 dfC1)
      "boro_code" = true :=
  c1_required_columns_present cfgC1 "nta_2020" "NTAs 2020" (fun _ => none)
    (fun _ => none) 0 dfC1
    (ntaPipeline "nta_2020" (fun _ => none) (fun _ => none) 0 dfC1) rfl
    "boro_code" (by decide)

/-- C2: for every raw input whose pipeline result (after renaming, SODA
column drop and metadata append) misses at least one required or
primary-key column, `transform` raises a validation error carrying the
dataset name and exactly the missing set (required minus present), and no
cleaned frame is produced. -/
theorem c2_missing_columns_error (cfg : DatasetConfig)
    (dataset_id dataset_name : String) (jl : String → Option GeoJson)
    (sf : GeoJson → Option String) (now : Int) (df : DataFrame)
    (h : missingColumns (requiredCols cfg) (ntaPipeline dataset_id jl sf now df) ≠ []) :
    transform cfg dataset_id dataset_name jl sf now df =
      .error ⟨dataset_name,
        missingColumns (requiredCols cfg) (ntaPipeline dataset_id jl sf now df)⟩
  ∧ ∀ c, c ∈ missingColumns (requiredCols cfg) (ntaPipeline dataset_id jl sf now df) ↔
      (c ∈ requiredCols cfg ∧
        (ntaPipeline dataset_id jl sf now df).hasCol c = false) := by
  constructor
  · rw [transform_eq]
    cases he : (missingColumns (requiredCols cfg) (ntaPipeline dataset_id jl sf now df)).isEmpty
    · simp
    · exact absurd (List.isEmpty_iff.mp he) h
  · intro c
    unfold missingColumns
    rw [List.mem_filter]
    constructor
    · rintro ⟨hm, hp⟩
      exact ⟨hm, by simpa using hp⟩
    · rintro ⟨hm, hp⟩
      exact ⟨hm, by simp [hp]⟩

/-- The configuration used for the concrete C2 inputs: `nta2020` is the
primary-key column. -/
def cfgC2 : DatasetConfig :=
  ⟨{ table_name := "ntas_2020",
     columns := [("nta2020", { type := "VARCHAR(6)", primary_key := true })] }⟩

/-- A raw frame that lacks the `nta2020` column entirely. -/
def dfC2 : DataFrame := ⟨[("boroname", [Val.str "Bronx"])]⟩

/-- C2 witness: on the concrete C2 inputs the transform fails with the
dataset name and the exact missing set. -/
theorem c2_witness :
    transform cfgC2 "nta_2020" "NTAs 2020" (fun _ => none) (fun _ => none) 0 dfC2 =
      .error ⟨"NTAs 2020", ["nta2020"]⟩ :=
  (c2_missing_columns_error cfgC2 "nta_2020" "NTAs 2020" (fun _ => none)
    (fun _ => none) 0 dfC2 (by decide)).1

/-- The geometry step does not change the column index. -/
theorem convertGeometryColumn_colNames (jl : String → Option GeoJson)
    (sf : GeoJson → Option String) (df : DataFrame) :
    (convertGeometryColumn jl sf df).colNames = df.colNames := by
  unfold convertGeometryColumn
  by_cases h : df.hasCol "geom" <;> simp [h, mapCol_colNames]

/-- The geometry step does not change any column's length. -/
theorem convertGeometryColumn_lengths (jl : String → Option GeoJson)
    (sf : GeoJson → Option String) (df : DataFrame) :
    (convertGeometryColumn jl sf df).cols.map (fun p => p.2.length) =
      df.cols.map (fun p => p.2.length) := by
  unfold convertGeometryColumn
  by_cases h : df.hasCol "geom" <;> simp [h, mapCol_lengths]

/-- Columns other than `geom` pass through the geometry step untouched. -/
theorem convertGeometryColumn_mem_other (jl : String → Option GeoJson)
    (sf : GeoJson → Option String) {df : DataFrame} {m : String} {vs : List Val}
    (h : (m, vs) ∈ df.cols) (hne : m ≠ "geom") :
    (m, vs) ∈ (convertGeometryColumn jl sf df).cols := by
  unfold convertGeometryColumn
  by_cases hc : df.hasCol "geom"
  · simp only [hc, if_pos]
    have := mapCol_mem "geom" (fun v => (convertGeometry jl sf v).1) h
    rwa [if_neg hne] at this
  · simp [hc]
    exact h

/-- C4 (amended): a falsy geometry payload (missing, empty string, empty
structure) is set to null with no warning recorded; a truthy payload whose
parse or shape conversion fails is set to null with a warning; a successful
conversion yields the SRID-4326 WKT value; and the geometry step preserves
the column index, every column's length (hence the row count) and every
non-geometry column's cells. Conversion never aborts the batch. -/
theorem c4_geometry_soft_fail (jl : String → Option GeoJson)
    (sf : GeoJson → Option String) :
    (∀ v : Val, v.isFalsy = true → convertGeometry jl sf v = (Val.null, false))
  ∧ (∀ v : Val, v.isFalsy = false → (geomDictOf jl v).bind sf = none →
      convertGeometry jl sf v = (Val.null, true))
  ∧ (∀ (v : Val) (w : String), v.isFalsy = false → (geomDictOf jl v).bind sf = some w →
      convertGeometry jl sf v = (Val.wkt w 4326, false))
  ∧ (∀ df : DataFrame,
      (convertGeometryColumn jl sf df).colNames = df.colNames
    ∧ (convertGeometryColumn jl sf df).cols.map (fun p => p.2.length) =
        df.cols.map (fun p => p.2.length)
    ∧ (∀ m vs, (m, vs) ∈ df.cols → m ≠ "geom" →
        (m, vs) ∈ (convertGeometryColumn jl sf df).cols)) := by
  refine ⟨?_, ?_, ?_, ?_⟩
  · intro v hv
    unfold convertGeometry
    rw [if_pos hv]
  · intro v hv hb
    unfold convertGeometry
    rw [if_neg (by simp [hv]), hb]
  · intro v w hv hb
    unfold convertGeometry
    rw [if_neg (by simp [hv]), hb]
  · intro df
    exact ⟨convertGeometryColumn_colNames jl sf df,
      convertGeometryColumn_lengths jl sf df,
      fun m vs hm hne => convertGeometryColumn_mem_other jl sf hm hne⟩

/-- C4 counterexample: for an empty-string payload and for a missing (None)
payload, `_convert_geometry` returns null but records no warning, against
the claim that a warning is recorded for every missing or empty payload. -/
theorem c4_counterexample :
    convertGeometry (fun _ => none) (fun _ => none) (Val.str "") = (Val.null, false)
  ∧ convertGeometry (fun _ => none) (fun _ => none) Val.null = (Val.null, false) :=
  ⟨rfl, rfl⟩

/-- The concrete frame used by the C4 witness. -/
def dfC4 : DataFrame :=
  ⟨[("geom", [Val.str "bad json"]), ("nta_name", [Val.str "Astoria"])]⟩

/-- C4 witness: the amended theorem applied to a malformed geometry string
and to the concrete frame. -/
theorem c4_witness :
    convertGeometry (fun _ => none) (fun _ => none) (Val.str "bad json") = (Val.null, true)
  ∧ (convertGeometryColumn (fun _ => none) (fun _ => none) dfC4).colNames = dfC4.colNames :=
  ⟨(c4_geometry_soft_fail (fun _ => none) (fun _ => none)).2.1
      (Val.str "bad json") (by decide) rfl,
   ((c4_geometry_soft_fail (fun _ => none) (fun _ => none)).2.2.2 dfC4).1⟩

/-- `convertNumericColumns` unfolded over the three declared columns. -/
theorem convertNumericColumns_eq (df : DataFrame) :
    convertNumericColumns df =
      numericStep (numericStep (numericStep df "boro_code") "shape_leng") "shape_area" :=
  rfl

/-- C5: the numeric-coercion step of `transform` preserves the column index
and every column's length (no row is rejected), rewrites exactly the
declared numeric columns cell-by-cell and leaves every other column's cells
unchanged; a cell whose string does not parse as a number becomes null
while numeric cells pass through. -/
theorem c5_numeric_coercion (df : DataFrame) :
    (convertNumericColumns df).colNames = df.colNames
  ∧ (convertNumericColumns df).cols.map (fun p => p.2.length) =
      df.cols.map (fun p => p.2.length)
  ∧ (∀ m vs, (m, vs) ∈ df.cols →
      (if m ∈ ntaNumericCols then (m, vs.map toNumericCoerce) else (m, vs)) ∈
        (convertNumericColumns df).cols)
  ∧ (∀ s, parseNumStr s = none → toNumericCoerce (Val.str s) = Val.null)
  ∧ (∀ n, toNumericCoerce (Val.num n) = Val.num n) := by
  refine ⟨?_, ?_, ?_, ?_, ?_⟩
  · rw [convertNumericColumns_eq, numericStep_colNames, numericStep_colNames,
      numericStep_colNames]
  · rw [convertNumericColumns_eq, numericStep_lengths, numericStep_lengths,
      numericStep_lengths]
  · intro m vs hm
    rw [convertNumericColumns_eq]
    by_cases e1 : m = "boro_code"
    · subst e1
      have h1 := numericStep_mem "boro_code" hm
      rw [if_pos rfl] at h1
      have h2 := numericStep_mem "shape_leng" h1
      rw [if_neg (by decide)] at h2
      have h3 := numericStep_mem "shape_area" h2
      rw [if_neg (by decide)] at h3
      rw [if_pos (by decide)]
      exact h3
    · by_cases e2 : m = "shape_leng"
      · subst e2
        have h1 := numericStep_mem "boro_code" hm
        rw [if_neg (by decide)] at h1
        have h2 := numericStep_mem "shape_leng" h1
        rw [if_pos rfl] at h2
        have h3 := numericStep_mem "shape_area" h2
        rw [if_neg (by decide)] at h3
        rw [if_pos (by decide)]
        exact h3
      · by_cases e3 : m = "shape_area"
        · subst e3
          have h1 := numericStep_mem "boro_code" hm
          rw [if_neg (by decide)] at h1
          have h2 := numericStep_mem "shape_leng" h1
          rw [if_neg (by decide)] at h2
          have h3 := numericStep_mem "shape_area" h2
          rw [if_pos rfl] at h3
          rw [if_pos (by decide)]
          exact h3
        · have h1 := numericStep_mem "boro_code" hm
          rw [if_neg e1] at h1
          have h2 := numericStep_mem "shape_leng" h1
          rw [if_neg e2] at h2
          have h3 := numericStep_mem "shape_area" h2
          rw [if_neg e3] at h3
          rw [if_neg (by simp [ntaNumericCols, e1, e2, e3])]
          exact h3
  · intro s h
    simp [toNumericCoerce, h]
  · intro n
    rfl

/-- The concrete frame used by the C5 witness. -/
def dfC5 : DataFrame :=
  ⟨[("boro_code", [Val.str "abc"]), ("nta_name", [Val.str "Astoria"])]⟩

/-- C5 witness: the theorem applied to a frame whose `boro_code` column
holds a non-numeric string. -/
theorem c5_witness :
    ("boro_code", [Val.str "abc"].map toNumericCoerce) ∈ (convertNumericColumns dfC5).cols
  ∧ toNumericCoerce (Val.str "abc") = Val.null := by
  constructor
  · have h := (c5_numeric_coercion dfC5).2.2.1 "boro_code" [Val.str "abc"] (by decide)
    rwa [if_pos (by decide)] at h
  · exact (c5_numeric_coercion dfC5).2.2.2.1 "abc" (by decide)

/-- Setting a column definition under a fresh name appends it. -/
theorem setColumnDef_of_not_mem (cols : List (String × ColumnSchema)) (n : String)
    (d : ColumnSchema) (h : cols.any (fun p => p.1 = n) = false) :
    setColumnDef cols n d = cols ++ [(n, d)] := by
  unfold setColumnDef
  rw [h]
  simp

/-- C6: `get_schema` is a pure (hence deterministic, side-effect-free)
function of the static configuration, and for a configuration that does not
itself declare the metadata names its column mapping is exactly the declared
columns followed by a non-nullable `VARCHAR(20)` `dataset_id` definition and
a non-nullable `TIMESTAMP` `ingestion_timestamp` definition defaulting to
`CURRENT_TIMESTAMP`; the rest of the descriptor is untouched. -/
theorem c6_get_schema_exact (cfg : DatasetConfig)
    (h1 : cfg.data_schema.columns.any (fun p => p.1 = "dataset_id") = false)
    (h2 : cfg.data_schema.columns.any (fun p => p.1 = "ingestion_timestamp") = false) :
    (get_schema cfg).columns =
      cfg.data_schema.columns ++
        [("dataset_id", datasetIdColumn), ("ingestion_timestamp", ingestionTimestampColumn)]
  ∧ datasetIdColumn.type = "VARCHAR(20)" ∧ datasetIdColumn.nullable = false
  ∧ ingestionTimestampColumn.type = "TIMESTAMP"
  ∧ ingestionTimestampColumn.nullable = false
  ∧ ingestionTimestampColumn.default = some (PyVal.str "CURRENT_TIMESTAMP")
  ∧ (get_schema cfg).table_name = cfg.data_schema.table_name := by
  refine ⟨?_, rfl, rfl, rfl, rfl, rfl, rfl⟩
  show setColumnDef (setColumnDef cfg.data_schema.columns "dataset_id" datasetIdColumn)
      "ingestion_timestamp" ingestionTimestampColumn = _
  rw [setColumnDef_of_not_mem _ _ _ h1]
  rw [setColumnDef_of_not_mem]
  · rw [List.append_assoc]
    rfl
  · rw [List.any_append, h2]
    decide

/-- The concrete configuration used by the C6 witness. -/
def cfgC6 : DatasetConfig :=
  ⟨{ table_name := "ntas_2020",
     columns := [("nta2020", { type := "VARCHAR(6)", primary_key := true }),
                 ("boro_code", { type := "INTEGER", required := true })] }⟩

/-- C6 witness: the exact-columns property on the concrete configuration. -/
theorem c6_witness :
    (get_schema cfgC6).columns =
      cfgC6.data_schema.columns ++
        [("dataset_id", datasetIdColumn), ("ingestion_timestamp", ingestionTimestampColumn)] :=
  (c6_get_schema_exact cfgC6 (by decide) (by decide)).1

/-- Every record of the updated metadata table that carries the upserted
dataset id holds the new record count and status. -/
theorem updateMetadataTable_mem (meta : List MetadataRecord) (rec : MetadataRecord) :
    ∀ m ∈ updateMetadataTable meta rec, m.dataset_id = rec.dataset_id →
      m.record_count = rec.record_count ∧ m.status = rec.status := by
  intro m hm hid
  unfold updateMetadataTable at hm
  cases hc : meta.any (fun m => m.dataset_id = rec.dataset_id)
  · rw [hc] at hm
    simp only [Bool.false_eq_true, if_false] at hm
    rcases List.mem_append.mp hm with hin | hin
    · exfalso
      have := List.any_eq_false.mp hc m hin
      simp [hid] at this
    · rcases List.mem_singleton.mp hin with rfl
      exact ⟨rfl, rfl⟩
  · rw [hc] at hm
    simp only [if_true] at hm
    rcases List.mem_map.mp hm with ⟨a, _, ha⟩
    by_cases hae : a.dataset_id = rec.dataset_id
    · rw [if_pos hae] at ha
      rw [← ha]
      exact ⟨rfl, rfl⟩
    · rw [if_neg hae] at ha
      exact absurd (ha ▸ hid) hae

/-- The updated metadata table holds a record for the upserted dataset id. -/
theorem updateMetadataTable_exists (meta : List MetadataRecord) (rec : MetadataRecord) :
    (updateMetadataTable meta rec).any (fun m => m.dataset_id = rec.dataset_id) = true := by
  unfold updateMetadataTable
  cases hc : meta.any (fun m => m.dataset_id = rec.dataset_id)
  · simp
  · simp only [if_true]
    rcases List.any_eq_true.mp hc with ⟨a, ha, hpa⟩
    rw [List.any_eq_true]
    refine ⟨if a.dataset_id = rec.dataset_id then
      { a with last_ingestion := rec.last_ingestion,
               record_count := rec.record_count, status := rec.status }
      else a, List.mem_map_of_mem _ ha, ?_⟩
    have hae : a.dataset_id = rec.dataset_id := by simpa using hpa
    rw [if_pos hae]
    simpa using hae

/-- C7 (amended): a successful `store_data` in append mode appends the rows
to the destination table, returns the count of rows written in that call,
and updates the Dataset Metadata Record for the dataset with a success
status and that batch count — not the destination table's new total. -/
theorem c7_store_updates_metadata (st : DBState) (rows : List Row)
    (table_name dataset_id : String) (now : Int) :
    (store_data st rows table_name dataset_id "append" now).2 = rows.length
  ∧ (store_data st rows table_name dataset_id "append" now).1.table = st.table ++ rows
  ∧ (store_data st rows table_name dataset_id "append" now).1.metadata.any
      (fun m => m.dataset_id = dataset_id) = true
  ∧ ∀ m ∈ (store_data st rows table_name dataset_id "append" now).1.metadata,
      m.dataset_id = dataset_id → m.record_count = rows.length ∧ m.status = "success" := by
  refine ⟨rfl, rfl, ?_, ?_⟩
  · exact updateMetadataTable_exists st.metadata
      ⟨dataset_id, table_name, now, rows.length, "success"⟩
  · intro m hm hid
    exact updateMetadataTable_mem st.metadata
      ⟨dataset_id, table_name, now, rows.length, "success"⟩ m hm hid

/-- The database state used by the concrete C7 inputs: the destination
table already holds one row. -/
def stC7 : DBState := ⟨[[("id", Val.num 1)]], []⟩

/-- The two-row batch used by the concrete C7 inputs. -/
def rowsC7 : List Row := [[("id", Val.num 2)], [("id", Val.num 3)]]

/-- C7 counterexample: after appending a two-row batch to a one-row table
the destination holds three rows, but the Dataset Metadata Record stores a
record count of 2 (the batch size), not the new total row count 3. -/
theorem c7_counterexample :
    (store_data stC7 rowsC7 "ntas_2020" "nta_2020" "append" 0).1.table.length = 3
  ∧ (store_data stC7 rowsC7 "ntas_2020" "nta_2020" "append" 0).1.metadata =
      [⟨"nta_2020", "ntas_2020", 0, 2, "success"⟩] :=
  ⟨rfl, rfl⟩

/-- C7 witness: the amended theorem applied to the concrete C7 inputs. -/
theorem c7_witness :
    (store_data stC7 rowsC7 "ntas_2020" "nta_2020" "append" 0).2 = 2
  ∧ MetadataRecord.record_count ⟨"nta_2020", "ntas_2020", 0, 2, "success"⟩ = 2
  ∧ MetadataRecord.status ⟨"nta_2020", "ntas_2020", 0, 2, "success"⟩ = "success" :=
  ⟨(c7_store_updates_metadata stC7 rowsC7 "ntas_2020" "nta_2020" 0).1,
   ((c7_store_updates_metadata stC7 rowsC7 "ntas_2020" "nta_2020" 0).2.2.2
      ⟨"nta_2020", "ntas_2020", 0, 2, "success"⟩ (by decide) rfl).1,
   ((c7_store_updates_metadata stC7 rowsC7 "ntas_2020" "nta_2020" 0).2.2.2
      ⟨"nta_2020", "ntas_2020", 0, 2, "success"⟩ (by decide) rfl).2⟩

/-- C8: for every outcome of the aggregate query, the `/food-gaps` handler
closes the storage (the `finally` step), an exception becomes a 500 response
whose detail is the exception's message, and a successful query returns its
GeoJSON document unchanged. -/
theorem c8_food_gaps_boundary (q : Except String String) :
    (get_food_gaps q).storage_closed = true
  ∧ (∀ e, q = .error e → (get_food_gaps q).response = .httpError 500 e)
  ∧ (∀ b, q = .ok b → (get_food_gaps q).response = .ok b) := by
  refine ⟨?_, ?_, ?_⟩
  · cases q <;> rfl
  · intro e he
    subst he
    rfl
  · intro b hb
    subst hb
    rfl

/-- C8 witness: the boundary theorem applied to a failing query. -/
theorem c8_witness :
    (get_food_gaps (Except.error "connection refused")).response =
      ApiResult.httpError 500 "connection refused"
  ∧ (get_food_gaps (Except.error "connection refused")).storage_closed = true :=
  ⟨(c8_food_gaps_boundary (Except.error "connection refused")).2.1
      "connection refused" rfl,
   (c8_food_gaps_boundary (Except.error "connection refused")).1⟩

/-- C10: in the DDL emitted by `create_table_from_schema`, a falsy declared
default (0, empty string, False) produces no DEFAULT clause — the column
fragment is identical to one with no declared default — and a primary-key
column's constraint segment is exactly PRIMARY KEY, never carrying a
NOT NULL token even when the column is declared non-nullable. -/
theorem c10_ddl_default_and_pk (col_name : String) (d : ColumnSchema) (v : PyVal) :
    (v.truthy = false →
      colFragment col_name { d with default := some v } =
        colFragment col_name { d with default := none })
  ∧ PyVal.truthy (.int 0) = false
  ∧ PyVal.truthy (.str "") = false
  ∧ PyVal.truthy (.bool false) = false
  ∧ (d.primary_key = true →
      constraintSeg d = [" PRIMARY KEY"] ∧ " NOT NULL" ∉ constraintSeg d)
  ∧ (v.truthy = false → ∀ tn,
      create_table_from_schema ⟨tn, [(col_name, { d with default := some v })], [], []⟩ =
        create_table_from_schema ⟨tn, [(col_name, { d with default := none })], [], []⟩) := by
  have hfrag : v.truthy = false →
      colFragment col_name { d with default := some v } =
        colFragment col_name { d with default := none } := by
    intro hv
    unfold colFragment colSegments defaultSeg constraintSeg
    simp [hv]
  refine ⟨hfrag, rfl, rfl, rfl, ?_, ?_⟩
  · intro hpk
    unfold constraintSeg
    rw [if_pos hpk]
    exact ⟨rfl, by decide⟩
  · intro hv tn
    unfold create_table_from_schema
    simp [hfrag hv]

/-- C10 witness: a zero integer default yields the same fragment as no
default, and a non-nullable primary-key column yields only PRIMARY KEY. -/
theorem c10_witness :
    colFragment "record_count" { type := "INTEGER", default := some (PyVal.int 0) } =
      colFragment "record_count" { type := "INTEGER", default := none }
  ∧ constraintSeg { type := "VARCHAR(20)", nullable := false, primary_key := true } =
      [" PRIMARY KEY"] :=
  ⟨(c10_ddl_default_and_pk "record_count" { type := "INTEGER" } (PyVal.int 0)).1 rfl,
   ((c10_ddl_default_and_pk "nta2020"
      { type := "VARCHAR(20)", nullable := false, primary_key := true }
      (PyVal.int 0)).2.2.2.2.1 rfl).1⟩

/-- C3 (amended): the upsert row loop executes one single-row
INSERT-ON-CONFLICT statement per record with no batching, and when every
statement succeeds the single commit happens exactly once, after the last
row; when a statement fails partway through the loop, the commit never runs
and the rolled-back transaction leaves the committed destination table
unchanged — no partial write is persisted. -/
theorem c3_upsert_row_loop (fails : Row → Bool) (st : DBState) (records : List Row)
    (table_name dataset_id : String) (unique_columns : List String) (now : Int) :
    ((∀ r ∈ records, fails r = false) →
      upsertEvents fails table_name unique_columns records =
        records.map (fun r => .exec (mkUpsertSql table_name unique_columns r)) ++ [.commit])
  ∧ (∀ st', upsert_data fails st records table_name dataset_id unique_columns now =
      .error st' → st' = st) := by
  constructor
  · induction records with
    | nil => intro _; rfl
    | cons r rs ih =>
      intro hok
      have hr : fails r = false := hok r (List.mem_cons_self r rs)
      simp only [upsertEvents, hr, Bool.false_eq_true, if_false, List.map_cons,
        List.cons_append]
      exact congrArg _ (ih (fun x hx => hok x (List.mem_cons_of_mem r hx)))
  · intro st' h
    unfold upsert_data at h
    cases hl : upsertLoop fails unique_columns st.table records
    · rw [hl] at h
      simp only [Except.error.injEq] at h
      exact h.symm
    · rw [hl] at h
      exact Except.noConfusion h

/-- First row of the concrete C3 batch. -/
def r1C3 : Row := [("id", Val.num 1), ("v", Val.num 10)]

/-- Second row of the concrete C3 batch; its statement fails. -/
def r2C3 : Row := [("id", Val.num 2), ("v", Val.num 20)]

/-- The failure model for the concrete C3 run: the database raises on the
second row's statement. -/
def failsC3 : Row → Bool := fun r => lookupRow r "id" == some (Val.num 2)

/-- C3 counterexample: the first row's statement executes and the second
fails, yet the committed destination table is unchanged (empty) — the
failure partway through the loop leaves no partial write, because the one
commit after the loop never ran. -/
theorem c3_counterexample :
    upsert_data failsC3 ⟨[], []⟩ [r1C3, r2C3] "ntas_2020" "nta_2020" ["id"] 0 =
      .error ⟨[], []⟩
  ∧ upsertEvents failsC3 "ntas_2020" ["id"] [r1C3, r2C3] =
      [.exec (mkUpsertSql "ntas_2020" ["id"] r1C3),
       .exec (mkUpsertSql "ntas_2020" ["id"] r2C3)] :=
  ⟨rfl, rfl⟩

/-- C3 witness: the amended theorem applied to the concrete two-row batch,
once with no failures (per-row statements then a single trailing commit)
and once with the failing second row (committed state unchanged). -/
theorem c3_witness :
    upsertEvents (fun _ => false) "ntas_2020" ["id"] [r1C3, r2C3] =
      [DbEvent.exec (mkUpsertSql "ntas_2020" ["id"] r1C3),
       DbEvent.exec (mkUpsertSql "ntas_2020" ["id"] r2C3), DbEvent.commit]
  ∧ (⟨[], []⟩ : DBState) = ⟨[], []⟩ :=
  ⟨(c3_upsert_row_loop (fun _ => false) ⟨[], []⟩ [r1C3, r2C3] "ntas_2020" "nta_2020"
      ["id"] 0).1 (fun _ _ => rfl),
   (c3_upsert_row_loop failsC3 ⟨[], []⟩ [r1C3, r2C3] "ntas_2020" "nta_2020"
      ["id"] 0).2 ⟨[], []⟩ rfl⟩

/-- Lower-casing is idempotent on ASCII character codes. -/
theorem toLowerCode_idem (n : Nat) : toLowerCode (toLowerCode n) = toLowerCode n := by
  unfold toLowerCode
  by_cases h : 65 ≤ n ∧ n ≤ 90
  · rw [if_pos h, if_neg (by omega)]
  · rw [if_neg h, if_neg h]

/-- Every character of the whitespace-collapsed output is either the
underscore or a non-whitespace character of the input. -/
theorem mem_collapseSpacesAux {x : Nat} :
    ∀ (b : Bool) (l : List Nat), x ∈ collapseSpacesAux b l →
      x = 95 ∨ (x ∈ l ∧ isSpaceCode x = false) := by
  intro b l
  induction l generalizing b with
  | nil =>
    intro h
    exact absurd h (List.not_mem_nil x)
  | cons c rest ih =>
    intro h
    unfold collapseSpacesAux at h
    by_cases hc : isSpaceCode c
    · rw [if_pos hc] at h
      cases b with
      | true =>
        rw [if_pos rfl] at h
        rcases ih true h with h95 | ⟨hm, hs⟩
        · exact Or.inl h95
        · exact Or.inr ⟨List.mem_cons_of_mem c hm, hs⟩
      | false =>
        rw [if_neg (by simp)] at h
        rcases List.mem_cons.mp h with rfl | hm
        · exact Or.inl rfl
        · rcases ih true hm with h95 | ⟨hm2, hs⟩
          · exact Or.inl h95
          · exact Or.inr ⟨List.mem_cons_of_mem c hm2, hs⟩
    · rw [if_neg hc] at h
      rcases List.mem_cons.mp h with rfl | hm
      · exact Or.inr ⟨List.mem_cons_self x rest, by simpa using hc⟩
      · rcases ih false hm with h95 | ⟨hm2, hs⟩
        · exact Or.inl h95
        · exact Or.inr ⟨List.mem_cons_of_mem c hm2, hs⟩

/-- Collapsing whitespace runs is the identity on whitespace-free text. -/
theorem collapseSpacesAux_of_no_space (b : Bool) (l : List Nat)
    (h : ∀ x ∈ l, isSpaceCode x = false) : collapseSpacesAux b l = l := by
  induction l generalizing b with
  | nil => rfl
  | cons c rest ih =>
    have hc : isSpaceCode c = false := h c (List.mem_cons_self c rest)
    unfold collapseSpacesAux
    rw [if_neg (by simp [hc]),
      ih false (fun x hx => h x (List.mem_cons_of_mem c hx))]

/-- Mapping a function that fixes every element is the identity. -/
theorem list_map_fixed {α : Type} (f : α → α) :
    ∀ l : List α, (∀ x ∈ l, f x = x) → l.map f = l := by
  intro l
  induction l with
  | nil => intro _; rfl
  | cons a t ih =>
    intro h
    rw [List.map_cons, h a (List.mem_cons_self a t),
      ih (fun x hx => h x (List.mem_cons_of_mem a hx))]

/-- Every character of a standardized name is a word character, is not
whitespace, and is fixed by lower-casing. -/
theorem standardizeName_chars (s : List Nat) :
    ∀ x ∈ standardizeName s,
      isWordCode x = true ∧ isSpaceCode x = false ∧ toLowerCode x = x := by
  intro x hx
  unfold standardizeName collapseSpaces at hx
  rcases mem_collapseSpacesAux false _ hx with h95 | ⟨hm, hs⟩
  · subst h95
    exact ⟨by decide, by decide, by decide⟩
  · rcases List.mem_filter.mp hm with ⟨hmap, hkeep⟩
    have hor : isWordCode x = true ∨ isSpaceCode x = true := by simpa using hkeep
    have hword : isWordCode x = true := by
      rcases hor with hw | hsp
      · exact hw
      · rw [hs] at hsp
        exact Bool.noConfusion hsp
    have hlow : toLowerCode x = x := by
      rcases List.mem_map.mp hmap with ⟨y, _, hy⟩
      rw [← hy, toLowerCode_idem]
    exact ⟨hword, hs, hlow⟩

/-- One standardized name is a fixed point of the standardizer. -/
theorem standardizeName_idem (s : List Nat) :
    standardizeName (standardizeName s) = standardizeName s := by
  have hch := standardizeName_chars s
  show collapseSpaces (((standardizeName s).map toLowerCode).filter
      (fun c => isWordCode c || isSpaceCode c)) = standardizeName s
  have hfix : (standardizeName s).map toLowerCode = standardizeName s :=
    list_map_fixed _ _ (fun x hx => (hch x hx).2.2)
  have hfil : (standardizeName s).filter (fun c => isWordCode c || isSpaceCode c) =
      standardizeName s := by
    rw [List.filter_eq_self]
    intro x hx
    rw [(hch x hx).1]
    rfl
  rw [hfix, hfil]
  exact collapseSpacesAux_of_no_space false _ (fun x hx => (hch x hx).2.1)

/-- C9: `standardize_column_names` is idempotent — applying it twice yields
the same column names as applying it once, since one application leaves
every name lowercase, whitespace-free and made of word characters only. -/
theorem c9_standardize_idempotent (columns : List (List Nat)) :
    standardize_column_names (standardize_column_names columns) =
      standardize_column_names columns := by
  unfold standardize_column_names
  rw [List.map_map]
  exact List.map_congr_left (fun s _ => standardizeName_idem s)
